import Mathlib

/-!
Verification of the flutter-search engine of the MAST beam piston-theory
flutter example (`examples/structural/beam_piston_theory_flutter/
beam_piston_theory_flutter.cpp`) against its natural-language design
specification.

The analysis driver (`BeamPistonTheoryFlutterAnalysis`) is embedded from the
C++ source.  The internals of `MAST::TimeDomainFlutterSolver`
(`analyze_and_find_critical_root_without_tracking` and
`calculate_sensitivity`) are not part of the provided sources; where a claim
depends on them they are modelled from the specification text, and each such
definition is marked `Modelled from the spec:` in its doc comment.

Real scalars are embedded as rationals so that every definition is
executable and decidable.
-/

namespace MastFlutter

/-- A `MAST::Parameter`: a named mutable scalar (`base/parameter.h`),
embedded as a (name, value) pair.  C++ object identity is reflected by
structural equality of the pair, which separates all ten parameters the
analysis creates. -/
structure Param where
  name : String
  value : ℚ
deriving DecidableEq, Repr

/-- `_thy` from `init` (line 111): `Parameter("thy", 0.06)`. -/
def thyParam : Param := ⟨"thy", 3/50⟩

/-- `_thz` from `init` (line 112): `Parameter("thz", 1.00)`. -/
def thzParam : Param := ⟨"thz", 1⟩

/-- `_rho` from `init` (line 113): `Parameter("rho", 2.8e3)`. -/
def rhoParam : Param := ⟨"rho", 2800⟩

/-- `_E` from `init` (line 114): `Parameter("E", 72.e9)`. -/
def eParam : Param := ⟨"E", 72000000000⟩

/-- `_nu` from `init` (line 115): `Parameter("nu", 0.33)`. -/
def nuParam : Param := ⟨"nu", 33/100⟩

/-- `_zero` from `init` (line 116): `Parameter("zero", 0.)`. -/
def zeroParam : Param := ⟨"zero", 0⟩

/-- `_velocity` from `init` (line 117): `Parameter("V", 0.)`. -/
def velocityParam : Param := ⟨"V", 0⟩

/-- `_mach` from `init` (line 118): `Parameter("mach", 3.)`. -/
def machParam : Param := ⟨"mach", 3⟩

/-- `_rho_air` from `init` (line 119): `Parameter("rho", 1.05)`.  Note that
its name string is `"rho"`, the same as the structural density parameter. -/
def rhoAirParam : Param := ⟨"rho", 21/20⟩

/-- `_gamma_air` from `init` (line 120): `Parameter("gamma", 1.4)`. -/
def gammaAirParam : Param := ⟨"gamma", 7/5⟩

/-- The full collection of parameters `init` creates, in source order
(lines 111-120). -/
def allParamsCreated : List Param :=
  [thyParam, thzParam, rhoParam, eParam, nuParam,
   zeroParam, velocityParam, machParam, rhoAirParam, gammaAirParam]

/-- `_params_for_sensitivity` as filled by `init` (lines 126-129):
`E`, `nu`, `thy`, `thz`, in that order. -/
def paramsForSensitivity : List Param :=
  [eParam, nuParam, thyParam, thzParam]

/-- `BeamPistonTheoryFlutterAnalysis::get_parameter` (lines 253-287):
iterates over `_params_for_sensitivity`; every name match overwrites
`rval`, so the last match wins; `rval` stays `nullptr` (`none`) when no
name matches (the C++ additionally prints the valid names in that case,
a diagnostic with no effect on the returned value or the vector). -/
def get_parameter (ps : List Param) (nm : String) : Option Param :=
  ps.foldl (fun rval p => if nm == p.name then some p else rval) none

/-! ## The flutter solver core, modelled from the specification

`TimeDomainFlutterSolver::analyze_and_find_critical_root_without_tracking`
is not among the provided sources; its sweep and bisection are modelled
from spec sections 4.3 and 4.4.  The tracked eigenvalue real part as a
function of velocity is abstracted as an oracle `f : Q -> Q` (the
composition of operator assembly, eigensolve and mode identification,
all external collaborators per spec section 6). -/

/-- Modelled from the spec (section 4.3): the `k`-th of the
`n_divisions + 1` evenly spaced sample velocities over `[lo, hi]`. -/
def samplePoint (lo hi : ℚ) (ndiv k : ℕ) : ℚ :=
  lo + k * (hi - lo) / ndiv

/-- Modelled from the spec (section 4.3): scan the consecutive sample
pairs in velocity order and return the index of the first bracket
`[V_k, V_{k+1}]` where the tracked real part changes sign from
non-positive to positive, or `none` when the whole sampled range shows
no crossing. -/
def findFirstBracket (f : ℚ → ℚ) (lo hi : ℚ) (ndiv : ℕ) : Option ℕ :=
  (List.range ndiv).find? fun k =>
    decide (f (samplePoint lo hi ndiv k) ≤ 0) &&
    decide (0 < f (samplePoint lo hi ndiv (k + 1)))

/-- Result of one bisection refinement: the convergence flag, the final
velocity estimate (the last midpoint evaluated — on fuel exhaustion the
best current estimate, flagged unconverged), and the sequence of brackets
after each iteration's replacement step, for stating the bracket
invariant. -/
structure BisectState where
  converged : Bool
  V : ℚ
  brackets : List (ℚ × ℚ)
deriving DecidableEq, Repr

/-- Modelled from the spec (section 4.4): bisection refinement of a
bracket.  Each iteration evaluates the midpoint, replaces the low or the
high end according to the sign of the tracked real part there
(non-positive goes to the low end), then terminates successfully when
`|real(lambda)| < tol` or `V_hi - V_lo < tol * V_hi`, whichever triggers
first; exhausting `max_bisection_iters` returns the flag `false` with the
current estimate. -/
def bisect (f : ℚ → ℚ) (tol : ℚ) : ℕ → ℚ → ℚ → BisectState
  | 0, lo, hi => ⟨false, (lo + hi) / 2, []⟩
  | n + 1, lo, hi =>
    let mid := (lo + hi) / 2
    let g := f mid
    let lo' := if g ≤ 0 then mid else lo
    let hi' := if g ≤ 0 then hi else mid
    if |g| < tol ∨ hi' - lo' < tol * hi' then ⟨true, mid, [(lo', hi')]⟩
    else
      let r := bisect f tol n lo' hi'
      ⟨r.converged, r.V, (lo', hi') :: r.brackets⟩

/-- Outcome component of `find_critical_root`: either the negative result
`NoCrossingFound` of spec section 7, or a root with its convergence
flag. -/
inductive FlutterOutcome where
  | noCrossingFound : FlutterOutcome
  | root (converged : Bool) (V : ℚ) : FlutterOutcome
deriving DecidableEq, Repr

/-- The `(found, FlutterRoot)` pair of spec section 6. -/
structure CriticalRootResult where
  found : Bool
  outcome : FlutterOutcome
deriving DecidableEq, Repr

/-- Modelled from the spec (sections 4.3, 4.4, 6):
`find_critical_root(tol, max_bisection_iters)`, realized in the source as
`analyze_and_find_critical_root_without_tracking` — coarse sweep at
`n_divisions + 1` evenly spaced points, then bisection of the first
crossing bracket; with no crossing it reports `found = false` and
`NoCrossingFound`. -/
def findCriticalRoot (f : ℚ → ℚ) (tol : ℚ) (maxIters : ℕ)
    (lo hi : ℚ) (ndiv : ℕ) : CriticalRootResult :=
  match findFirstBracket f lo hi ndiv with
  | none => ⟨false, .noCrossingFound⟩
  | some k =>
    let r := bisect f tol maxIters
      (samplePoint lo hi ndiv k) (samplePoint lo hi ndiv (k + 1))
    ⟨r.converged, .root r.converged r.V⟩

/-! ## The analysis driver state -/

/-- The flutter root object (`MAST::FlutterRootBase`): the converged flutter
velocity `V` and the sensitivity value `V_sens` that
`calculate_sensitivity` fills in. -/
structure FlutterRootB where
  V : ℚ
  V_sens : ℚ
deriving DecidableEq, Repr

/-- State of `BeamPistonTheoryFlutterAnalysis` relevant to the claims:
the `_initialized` flag, the current value of the `_velocity` parameter,
`_params_for_sensitivity`, `_flutter_root`, the flutter solver's root
history, the set of parameters registered with `_discipline`, and the
modal `_basis` (abstracted to its data). -/
structure AnalysisState where
  inited : Bool
  velocity : ℚ
  sensParams : List Param
  flutter_root : Option FlutterRootB
  history : List ℚ
  disciplineParams : List Param
  basis : List ℚ
deriving DecidableEq, Repr

/-- State established by `init` (lines 59-190): flag set, velocity
parameter at `0.` (line 117), the four sensitivity parameters collected
(lines 126-129), no flutter root, nothing registered with the
discipline. -/
def initState : AnalysisState :=
  { inited := true
    velocity := 0
    sensParams := paramsForSensitivity
    flutter_root := none
    history := []
    disciplineParams := []
    basis := [] }

/-- Modelled from the spec: `PhysicsDisciplineBase::add_parameter` (the
discipline base class is not among the provided sources).  The discipline
keeps a registry of parameters for sensitivity analysis; registration of
an already-registered parameter is a no-op, matching a keyed-map
insert. -/
def add_parameter (l : List Param) (p : Param) : List Param :=
  if p ∈ l then l else l ++ [p]

/-- Modelled from the spec: `PhysicsDisciplineBase::remove_parameter`,
the matching registry erase. -/
def remove_parameter (l : List Param) (p : Param) : List Param :=
  l.erase p

/-- Modelled from the spec (section 4.5):
`TimeDomainFlutterSolver::calculate_sensitivity` stores on the root the
onset-velocity sensitivity obtained by implicit differentiation of the
flutter condition `real(lambda(V, p)) = 0`, namely
`dV*/dp = -(d re lambda / d p) / (d re lambda / d V)`; the two partial
derivatives come from the external operator-derivative collaborators and
are abstracted here as the inputs `dReDp` and `dReDV`. -/
def calculate_sensitivity (r : FlutterRootB) (dReDp dReDV : ℚ) : FlutterRootB :=
  { r with V_sens := -(dReDp / dReDV) }

/-- `BeamPistonTheoryFlutterAnalysis::sensitivity_solve` (lines 403-432):
asserts `_initialized` (line 407) and `_flutter_root` (line 410), a
failed `libmesh_assert` being `none`; registers the velocity parameter
and the target parameter with the discipline (lines 414-415); runs the
flutter solver's sensitivity computation (line 425), which stores
`V_sens` on the root; removes the two parameters again (lines 429-430);
returns `_flutter_root->V_sens` (line 431).  No check that `p` belongs
to `_params_for_sensitivity` appears anywhere in the function. -/
def sensitivity_solve (s : AnalysisState) (p : Param) (dReDp dReDV : ℚ) :
    Option (ℚ × AnalysisState) :=
  if s.inited = false then none else
  match s.flutter_root with
  | none => none
  | some r =>
    let d1 := add_parameter s.disciplineParams velocityParam
    let d2 := add_parameter d1 p
    let r' := calculate_sensitivity r dReDp dReDV
    let d3 := remove_parameter d2 p
    let d4 := remove_parameter d3 velocityParam
    some (r'.V_sens, { s with disciplineParams := d4, flutter_root := some r' })

/-- The clearing prologue of `solve` (lines 300-301): `_flutter_root =
nullptr` and `_flutter_solver->clear()`, the latter releasing the
solver's root history (spec section 6: `clear()` releases the
`RootHistory` and invalidates the current `FlutterRoot`).  Every other
piece of state is untouched. -/
def solveClearPhase (s : AnalysisState) : AnalysisState :=
  { s with flutter_root := none, history := [] }

/-- The modal phase of `solve` (lines 307-363): after the clearing
prologue, the velocity parameter is set to `0.` (line 308) and the
structural modal eigenproblem is solved at that velocity (line 315), the
eigenvectors becoming `_basis` (line 347).  The external modal solve is
abstracted as the oracle `basisOf`, a function of the velocity
parameter's value at the time of the solve. -/
def solveModalPhase (basisOf : ℚ → List ℚ) (s : AnalysisState) : AnalysisState :=
  let s1 := solveClearPhase s
  let s2 := { s1 with velocity := 0 }
  { s2 with basis := basisOf s2.velocity }

/-- `BeamPistonTheoryFlutterAnalysis::solve` (lines 291-397): asserts
`_initialized` (line 296), clears and re-solves the modal problem, hands
the basis to the flutter solver over the range `[1.e3, 1200.]` with 10
divisions (lines 370-374), runs
`analyze_and_find_critical_root_without_tracking` (line 377), asserts
`sol.first` (line 383, `none` here when it fails), stores the root and
returns its velocity (line 396). -/
def solve (f : ℚ → ℚ) (basisOf : ℚ → List ℚ) (s : AnalysisState)
    (tol : ℚ) (maxIters : ℕ) : Option (ℚ × AnalysisState) :=
  if s.inited = false then none else
  let s3 := solveModalPhase basisOf s
  match findCriticalRoot f tol maxIters 1000 1200 10 with
  | ⟨true, .root _ V⟩ => some (V, { s3 with flutter_root := some ⟨V, 0⟩ })
  | _ => none

/-- A state as it stands after a successful `solve`: the init-state with
a converged flutter root. -/
def exampleSolvedState : AnalysisState :=
  { initState with flutter_root := some ⟨1090, 0⟩ }

/-! ## Theorems -/

/-- C2: throughout the bisection refinement, after every iteration that
replaces `V_lo` or `V_hi` with the midpoint, the bracket invariant
holds: the tracked real part is non-positive at the low end and strictly
positive (hence non-negative) at the high end, given that the initial
bracket satisfies it (which the sweep's crossing test establishes). -/
theorem bisect_bracket_invariant (f : ℚ → ℚ) (tol : ℚ) (n : ℕ) (lo hi : ℚ)
    (hlo : f lo ≤ 0) (hhi : 0 < f hi) :
    ∀ q ∈ (bisect f tol n lo hi).brackets, f q.1 ≤ 0 ∧ 0 < f q.2 := by
  induction n generalizing lo hi with
  | zero => intro q hq; simp [bisect] at hq
  | succ m ih =>
    intro q hq
    by_cases hg : f ((lo + hi) / 2) ≤ 0
    · simp only [bisect, hg, if_true] at hq
      split at hq
      · simp only [List.mem_singleton] at hq
        exact hq ▸ ⟨hg, hhi⟩
      · rcases List.mem_cons.mp hq with h | h
        · exact h ▸ ⟨hg, hhi⟩
        · exact ih ((lo + hi) / 2) hi hg hhi q h
    · simp only [bisect, hg, if_false] at hq
      push_neg at hg
      split at hq
      · simp only [List.mem_singleton] at hq
        exact hq ▸ ⟨hlo, hg⟩
      · rcases List.mem_cons.mp hq with h | h
        · exact h ▸ ⟨hlo, hg⟩
        · exact ih lo ((lo + hi) / 2) hlo hg q h

/-- Witness for C2 at a concrete input: the tracked real part
`f v = v - 1090` is non-positive at `1080` and positive at `1100`, and
every bracket produced by the refinement keeps that sign pattern. -/
theorem bisect_bracket_invariant_witness :
    ((1080 : ℚ) - 1090 ≤ 0) ∧ (0 < (1100 : ℚ) - 1090) ∧
    ∀ q ∈ (bisect (fun v : ℚ => v - 1090) (1/100) 30 1080 1100).brackets,
      (fun v : ℚ => v - 1090) q.1 ≤ 0 ∧ 0 < (fun v : ℚ => v - 1090) q.2 :=
  ⟨by norm_num, by norm_num,
   bisect_bracket_invariant (fun v : ℚ => v - 1090) (1/100) 30 1080 1100
     (by norm_num) (by norm_num)⟩

/-- C3: when the tracked real part is negative at all `n_divisions + 1`
sample velocities, `find_critical_root` reports `found = false` with the
`NoCrossingFound` indication — a total function, so no crash, and no
root is produced. -/
theorem findCriticalRoot_no_crossing (f : ℚ → ℚ) (tol : ℚ) (maxIters : ℕ)
    (lo hi : ℚ) (ndiv : ℕ)
    (hneg : ∀ i ≤ ndiv, f (samplePoint lo hi ndiv i) < 0) :
    findCriticalRoot f tol maxIters lo hi ndiv =
      ⟨false, FlutterOutcome.noCrossingFound⟩ := by
  have hb : findFirstBracket f lo hi ndiv = none := by
    rw [findFirstBracket, List.find?_eq_none]
    intro k hk
    rw [List.mem_range] at hk
    simp only [Bool.and_eq_true, decide_eq_true_eq, not_and]
    intro _
    have := hneg (k + 1) (by omega)
    exact fun h => absurd h (by linarith)
  rw [findCriticalRoot, hb]

/-- Witness for C3 at a concrete input: a uniformly stable configuration
(real part constantly `-1`) over the program's sampled range
`[1000, 1200]` with 10 divisions yields the negative result. -/
theorem findCriticalRoot_no_crossing_witness :
    (∀ i ≤ 10, (fun _ : ℚ => (-1 : ℚ)) (samplePoint 1000 1200 10 i) < 0) ∧
    findCriticalRoot (fun _ : ℚ => (-1 : ℚ)) (1/1000) 50 1000 1200 10 =
      ⟨false, FlutterOutcome.noCrossingFound⟩ :=
  ⟨fun _ _ => by norm_num,
   findCriticalRoot_no_crossing (fun _ : ℚ => (-1 : ℚ)) (1/1000) 50 1000 1200 10
     (fun _ _ => by norm_num)⟩

/-- The overwrite-on-match fold of `get_parameter` over any prefix keeps
the last match of the scanned elements and otherwise the accumulator. -/
theorem get_parameter_foldl (nm : String) (ps : List Param) :
    ∀ acc : Option Param,
      ps.foldl (fun rval p => if nm == p.name then some p else rval) acc
        = (ps.reverse.find? fun p => nm == p.name).or acc := by
  induction ps with
  | nil => intro acc; simp
  | cons p rest ih =>
    intro acc
    rw [List.foldl_cons, ih, List.reverse_cons, List.find?_append,
      Option.or_assoc]
    congr 1
    by_cases h : nm == p.name <;> simp [List.find?, h]

/-- C10: `get_parameter(nm)` returns exactly the last parameter of the
sensitivity vector whose `name()` equals `nm` (the first match of the
reversed vector), and `none` — the C++ `nullptr`, returned after the
purely diagnostic printing of the valid names — when no parameter
matches; the fold reads the vector without modifying it. -/
theorem get_parameter_spec (ps : List Param) (nm : String) :
    get_parameter ps nm = ps.reverse.find? fun p => nm == p.name := by
  rw [get_parameter, get_parameter_foldl, Option.or_none]

/-- C6 counterexample: name uniqueness fails for the full collection of
parameters `init` creates — the structural density parameter of line 113
and the air density parameter of line 119 are two distinct parameters
both named `"rho"` — even though it holds inside the sensitivity set. -/
theorem init_param_names_clash :
    ¬ (allParamsCreated.map Param.name).Nodup ∧
    rhoParam.name = rhoAirParam.name ∧
    rhoParam ∈ allParamsCreated ∧ rhoAirParam ∈ allParamsCreated ∧
    rhoParam ≠ rhoAirParam := by
  refine ⟨?_, rfl, ?_, ?_, ?_⟩
  · intro h
    simp only [allParamsCreated, List.map_cons, List.map_nil,
      thyParam, thzParam, rhoParam, eParam, nuParam, zeroParam,
      velocityParam, machParam, rhoAirParam, gammaAirParam] at h
    exact absurd h (by decide)
  · simp [allParamsCreated]
  · simp [allParamsCreated]
  · intro h
    have : (2800 : ℚ) = 21/20 := congrArg Param.value h
    norm_num at this

/-- C6 (amended): within the set of parameters actually used for
sensitivity lookups, `_params_for_sensitivity` = {E, nu, thy, thz},
every name is unique, so `get_parameter` identifies at most one
parameter there; the uniqueness does not extend to the full collection
of created parameters. -/
theorem sensitivity_param_names_nodup :
    (paramsForSensitivity.map Param.name).Nodup := by
  simp only [paramsForSensitivity, List.map_cons, List.map_nil,
    eParam, nuParam, thyParam, thzParam]
  decide

/-- C7: the clearing prologue run at the start of every `solve`
invocation (realizing the spec's `clear()`) nullifies the current
`FlutterRoot` and releases the solver's root history while leaving the
modal basis, the discipline's registered parameters, the sensitivity
parameter vector, the velocity parameter's value and the initialization
flag unchanged; and a sensitivity computation issued right after it
fails instead of consuming a stale root. -/
theorem solveClearPhase_spec (s : AnalysisState) (p : Param) (a b : ℚ) :
    (solveClearPhase s).flutter_root = none ∧
    (solveClearPhase s).history = [] ∧
    (solveClearPhase s).basis = s.basis ∧
    (solveClearPhase s).disciplineParams = s.disciplineParams ∧
    (solveClearPhase s).sensParams = s.sensParams ∧
    (solveClearPhase s).velocity = s.velocity ∧
    (solveClearPhase s).inited = s.inited ∧
    sensitivity_solve (solveClearPhase s) p a b = none := by
  refine ⟨rfl, rfl, rfl, rfl, rfl, rfl, rfl, ?_⟩
  cases h : s.inited <;> simp [sensitivity_solve, solveClearPhase, h]

/-- C8: the modal phase of every `solve` invocation sets the velocity
parameter to exactly `0` before the structural modal eigenproblem solve,
so the basis handed to the flutter solver is computed at zero airspeed
whatever velocity value a previous search left behind. -/
theorem solveModalPhase_zero_velocity (basisOf : ℚ → List ℚ)
    (s : AnalysisState) :
    (solveModalPhase basisOf s).velocity = 0 ∧
    (solveModalPhase basisOf s).basis = basisOf 0 :=
  ⟨rfl, rfl⟩

/-- C4: for a converged `FlutterRoot` and a tracked parameter,
`sensitivity_solve` returns `dV*/dp = -(d re lambda/dp)/(d re lambda/dV)`
— the implicit differentiation of `real(lambda(V, p)) = 0` — and the
returned scalar is exactly the `V_sens` field stored on the root by
`calculate_sensitivity`. -/
theorem sensitivity_solve_formula (s : AnalysisState) (p : Param)
    (dReDp dReDV : ℚ) (r : FlutterRootB)
    (hinit : s.inited = true) (hroot : s.flutter_root = some r)
    (_hdv : dReDV ≠ 0) :
    ∃ s', sensitivity_solve s p dReDp dReDV
        = some (-(dReDp / dReDV), s') ∧
      s'.flutter_root = some (calculate_sensitivity r dReDp dReDV) ∧
      (calculate_sensitivity r dReDp dReDV).V_sens = -(dReDp / dReDV) := by
  refine ⟨{ s with
      disciplineParams := remove_parameter (remove_parameter
        (add_parameter (add_parameter s.disciplineParams velocityParam) p) p)
        velocityParam,
      flutter_root := some (calculate_sensitivity r dReDp dReDV) },
    ?_, rfl, rfl⟩
  rw [sensitivity_solve, hinit, hroot]
  rfl

/-- Witness for C4 at a concrete input: in a solved state, with partial
derivatives `6` and `3`, the computed and stored sensitivity is `-2`. -/
theorem sensitivity_solve_formula_witness :
    exampleSolvedState.inited = true ∧
    exampleSolvedState.flutter_root = some ⟨1090, 0⟩ ∧
    (3 : ℚ) ≠ 0 ∧
    ∃ s', sensitivity_solve exampleSolvedState eParam 6 3
        = some (-((6 : ℚ) / 3), s') ∧
      s'.flutter_root = some (calculate_sensitivity ⟨1090, 0⟩ 6 3) ∧
      (calculate_sensitivity ⟨1090, 0⟩ 6 3).V_sens = -((6 : ℚ) / 3) :=
  ⟨rfl, rfl, by norm_num,
   sensitivity_solve_formula exampleSolvedState eParam 6 3 ⟨1090, 0⟩
     rfl rfl (by norm_num)⟩

/-- C5 (amended): the sensitivity operation fails — a `libmesh_assert`,
the embedding's `none`, standing for the spec's `StaleRootError` — when
and only when the analysis is uninitialized or no converged
`FlutterRoot` is present; whether the parameter belongs to the tracked
sensitivity set is never checked. -/
theorem sensitivity_solve_guard (s : AnalysisState) (p : Param) (a b : ℚ) :
    (sensitivity_solve s p a b).isSome
      = (s.inited && s.flutter_root.isSome) := by
  cases h : s.inited <;> cases hr : s.flutter_root <;>
    simp [sensitivity_solve, h, hr]

/-- C5 counterexample: with a converged root in hand, requesting the
sensitivity with respect to the Mach parameter — which is not among the
parameters of the sensitivity set — succeeds and returns a value instead
of failing. -/
theorem sensitivity_solve_untracked_param_accepted :
    machParam ∉ exampleSolvedState.sensParams ∧
    (sensitivity_solve exampleSolvedState machParam 1 2).isSome = true := by
  constructor
  · simp [exampleSolvedState, initState, paramsForSensitivity, machParam,
      eParam, nuParam, thyParam, thzParam, Param.mk.injEq]
  · rfl

/-- Registering the velocity parameter and `p` and then deregistering
exactly those two returns the discipline registry to its starting
contents whenever neither was registered beforehand. -/
theorem add_remove_param_frame (S : List Param) (p : Param)
    (hv : velocityParam ∉ S) (hp : p ∉ S) :
    remove_parameter (remove_parameter
      (add_parameter (add_parameter S velocityParam) p) p) velocityParam
      = S := by
  simp only [remove_parameter]
  have h1 : add_parameter S velocityParam = S ++ [velocityParam] := by
    rw [add_parameter, if_neg hv]
  rw [h1]
  by_cases hpv : p = velocityParam
  · subst hpv
    rw [add_parameter, if_pos (by simp), List.erase_append_right _ hv,
      List.erase_cons_head, List.append_nil, List.erase_of_not_mem hv]
  · have hpd : p ∉ S ++ [velocityParam] := by
      simp only [List.mem_append, List.mem_singleton]
      exact fun h => h.elim (fun h2 => hp h2) hpv
    rw [add_parameter, if_neg hpd, List.erase_append_right _ hpd,
      List.erase_cons_head, List.append_nil,
      List.erase_append_right _ hv, List.erase_cons_head,
      List.append_nil]

/-- C9: `sensitivity_solve` leaves the discipline's registered parameter
set unchanged on return — it registers the velocity parameter and the
target parameter before the sensitivity computation and removes exactly
those two afterwards — so a parameter is registered after the call iff
it was registered before (in the program, the registry is empty before
every call). -/
theorem sensitivity_solve_discipline_frame (s : AnalysisState) (p : Param)
    (a b : ℚ) (r : FlutterRootB)
    (hinit : s.inited = true) (hroot : s.flutter_root = some r)
    (hv : velocityParam ∉ s.disciplineParams)
    (hp : p ∉ s.disciplineParams) :
    ∃ v s', sensitivity_solve s p a b = some (v, s') ∧
      s'.disciplineParams = s.disciplineParams ∧
      ∀ q : Param, q ∈ s'.disciplineParams ↔ q ∈ s.disciplineParams := by
  refine ⟨(calculate_sensitivity r a b).V_sens,
    { s with
      disciplineParams := remove_parameter (remove_parameter
        (add_parameter (add_parameter s.disciplineParams velocityParam) p) p)
        velocityParam,
      flutter_root := some (calculate_sensitivity r a b) }, ?_, ?_, ?_⟩
  · rw [sensitivity_solve, hinit, hroot]
    rfl
  · exact add_remove_param_frame s.disciplineParams p hv hp
  · intro q
    rw [add_remove_param_frame s.disciplineParams p hv hp]

/-- Witness for C9 at a concrete input: in the freshly solved state the
registry is empty; a sensitivity call for the Young's modulus parameter
returns it empty again. -/
theorem sensitivity_solve_discipline_frame_witness :
    exampleSolvedState.inited = true ∧
    exampleSolvedState.flutter_root = some ⟨1090, 0⟩ ∧
    velocityParam ∉ exampleSolvedState.disciplineParams ∧
    eParam ∉ exampleSolvedState.disciplineParams ∧
    ∃ v s', sensitivity_solve exampleSolvedState eParam 6 3 = some (v, s') ∧
      s'.disciplineParams = exampleSolvedState.disciplineParams ∧
      ∀ q : Param, q ∈ s'.disciplineParams ↔
        q ∈ exampleSolvedState.disciplineParams :=
  ⟨rfl, rfl, by simp [exampleSolvedState, initState],
   by simp [exampleSolvedState, initState],
   sensitivity_solve_discipline_frame exampleSolvedState eParam 6 3 ⟨1090, 0⟩
     rfl rfl (by simp [exampleSolvedState, initState])
     (by simp [exampleSolvedState, initState])⟩

/-- Bisection fuel bound: with a positive tolerance, a bracket whose low
end exceeds `1` and whose width is at most `tol * 2 ^ n` converges (one
of the two tolerance tests fires) within `n` iterations, for any `n ≥ 1`
— so `ceil(log2(width / tol))` iterations always suffice. -/
theorem bisect_converged_of_fuel (f : ℚ → ℚ) (tol : ℚ) (htol : 0 < tol) :
    ∀ (n : ℕ), 1 ≤ n → ∀ (fuel : ℕ), n ≤ fuel → ∀ (lo hi : ℚ),
      1 < lo → lo < hi → hi - lo ≤ tol * 2 ^ n →
      (bisect f tol fuel lo hi).converged = true := by
  intro n
  induction n with
  | zero => omega
  | succ m ih =>
    intro _ fuel hfuel lo hi hlo hlohi hw
    obtain ⟨k, rfl⟩ : ∃ k, fuel = k + 1 := ⟨fuel - 1, by omega⟩
    by_cases hg : f ((lo + hi) / 2) ≤ 0
    · simp only [bisect, hg, if_true]
      have hhi1 : (1 : ℚ) < hi := by linarith
      have hwid : hi - (lo + hi) / 2 = (hi - lo) / 2 := by ring
      split
      · rfl
      · rename_i hC
        rcases Nat.eq_zero_or_pos m with hm | hm
        · subst hm
          exfalso
          apply hC
          right
          rw [hwid]
          have : (hi - lo) / 2 ≤ tol := by
            rw [pow_one] at hw; linarith
          nlinarith
        · have hmid : (1:ℚ) < (lo + hi) / 2 := by linarith
          exact ih hm k (by omega) ((lo + hi) / 2) hi hmid (by linarith)
            (by rw [hwid] at *; rw [pow_succ] at hw; linarith)
    · simp only [bisect, hg, if_false]
      push_neg at hg
      have hmid : (1:ℚ) < (lo + hi) / 2 := by linarith
      have hwid : (lo + hi) / 2 - lo = (hi - lo) / 2 := by ring
      split
      · rfl
      · rename_i hC
        rcases Nat.eq_zero_or_pos m with hm | hm
        · subst hm
          exfalso
          apply hC
          right
          rw [hwid]
          have : (hi - lo) / 2 ≤ tol := by
            rw [pow_one] at hw; linarith
          nlinarith
        · exact ih hm k (by omega) lo ((lo + hi) / 2) hlo (by linarith)
            (by rw [hwid] at *; rw [pow_succ] at hw; linarith)

/-- C1 (amended): whenever consecutive sample points bracket a sign
change, `find_critical_root` terminates with `found = true` — it stops
when `|real(lambda)| < tol` or `V_hi - V_lo < tol * V_hi` or at the
iteration cap — and any `max_bisection_iters ≥ n` with
`V_hi - V_lo ≤ tol * 2 ^ n` suffices, which for `V_lo > 1` is the bound
`ceil(log2((V_hi - V_lo) / tol))`; however the returned velocity is only
guaranteed to satisfy `|real(lambda(V*))| < tol` when that test, rather
than the relative-width test, is the one that fires. -/
theorem findCriticalRoot_converges
    (f : ℚ → ℚ) (tol lo hi : ℚ) (ndiv n fuel k : ℕ)
    (hlo : 1 < lo) (hlohi : lo < hi) (htol : 0 < tol) (hndiv : 0 < ndiv)
    (hk : k < ndiv)
    (hneg : f (samplePoint lo hi ndiv k) ≤ 0)
    (hpos : 0 < f (samplePoint lo hi ndiv (k + 1)))
    (hn : 1 ≤ n) (hw : hi - lo ≤ tol * 2 ^ n) (hfuel : n ≤ fuel) :
    (findCriticalRoot f tol fuel lo hi ndiv).found = true := by
  have hex : ∃ j ∈ List.range ndiv,
      (decide (f (samplePoint lo hi ndiv j) ≤ 0) &&
       decide (0 < f (samplePoint lo hi ndiv (j + 1)))) = true :=
    ⟨k, List.mem_range.mpr hk, by simp [hneg, hpos]⟩
  obtain ⟨j, hj⟩ := Option.isSome_iff_exists.mp (List.find?_isSome.mpr hex)
  have hjp := List.find?_some hj
  simp only [Bool.and_eq_true, decide_eq_true_eq] at hjp
  have hfb : findFirstBracket f lo hi ndiv = some j := hj
  rw [findCriticalRoot, hfb]
  have hsub : ∀ i : ℕ,
      samplePoint lo hi ndiv (i + 1) - samplePoint lo hi ndiv i
        = (hi - lo) / ndiv := by
    intro i; rw [samplePoint, samplePoint]; push_cast; ring
  have hd : (0:ℚ) < (hi - lo) / ndiv :=
    div_pos (by linarith) (by exact_mod_cast hndiv)
  have hge : ∀ i : ℕ, lo ≤ samplePoint lo hi ndiv i := by
    intro i
    rw [samplePoint]
    have : (0:ℚ) ≤ i * (hi - lo) / ndiv :=
      div_nonneg (mul_nonneg (Nat.cast_nonneg i) (by linarith))
        (Nat.cast_nonneg ndiv)
    linarith
  have hnd1 : (1:ℚ) ≤ ndiv := by exact_mod_cast hndiv
  have hwid : samplePoint lo hi ndiv (j + 1) - samplePoint lo hi ndiv j
      ≤ tol * 2 ^ n := by
    rw [hsub j]
    calc (hi - lo) / ndiv ≤ hi - lo := div_le_self (by linarith) hnd1
      _ ≤ tol * 2 ^ n := hw
  show (bisect f tol fuel (samplePoint lo hi ndiv j)
    (samplePoint lo hi ndiv (j + 1))).converged = true
  apply bisect_converged_of_fuel f tol htol n hn fuel hfuel
  · exact lt_of_lt_of_le hlo (hge j)
  · have := hsub j; linarith
  · exact hwid

/-- Witness for C1 (amended) at a concrete input: the tracked real part
`f v = v - 1090` crosses between the samples `1080` and `1100` of the
program's range `[1000, 1200]`; with `tol = 1` the width bound
`200 ≤ 1 * 2 ^ 8` makes 8 iterations enough, and the cap 50 covers it. -/
theorem findCriticalRoot_converges_witness :
    ((1:ℚ) < 1000) ∧ ((1000:ℚ) < 1200) ∧ ((0:ℚ) < 1) ∧
    (0 < 10) ∧ (4 < 10) ∧
    ((fun v : ℚ => v - 1090) (samplePoint 1000 1200 10 4) ≤ 0) ∧
    (0 < (fun v : ℚ => v - 1090) (samplePoint 1000 1200 10 (4 + 1))) ∧
    (1 ≤ 8) ∧ ((1200:ℚ) - 1000 ≤ 1 * 2 ^ 8) ∧ (8 ≤ 50) ∧
    (findCriticalRoot (fun v : ℚ => v - 1090) 1 50 1000 1200 10).found
      = true :=
  ⟨by norm_num, by norm_num, by norm_num, by norm_num, by norm_num,
   by norm_num [samplePoint], by norm_num [samplePoint],
   by norm_num, by norm_num, by norm_num,
   findCriticalRoot_converges (fun v : ℚ => v - 1090) 1 1000 1200 10 8 50 4
     (by norm_num) (by norm_num) (by norm_num) (by norm_num) (by norm_num)
     (by norm_num [samplePoint]) (by norm_num [samplePoint])
     (by norm_num) (by norm_num) (by norm_num)⟩

/-- C1 counterexample: for the strictly increasing tracked real part
`f V = 1000 * (V - 1087)`, which crosses zero exactly once in the
program's range (at `V = 1087`), the search with `tol = 1/100` and a cap
of 50 converges by the relative-width test to `V* = 1090`, where
`|real(lambda(V*))| = 3000`, far above `tol`: the claimed guarantee
`|real(lambda(V*))| < tol` is false. -/
theorem findCriticalRoot_tolerance_counterexample :
    StrictMono (fun V : ℚ => 1000 * (V - 1087)) ∧
    (fun V : ℚ => 1000 * (V - 1087)) 1087 = 0 ∧
    findCriticalRoot (fun V : ℚ => 1000 * (V - 1087)) (1/100) 50
        1000 1200 10
      = ⟨true, FlutterOutcome.root true 1090⟩ ∧
    ¬ |(fun V : ℚ => 1000 * (V - 1087)) 1090| < 1/100 := by
  refine ⟨fun a b h => by dsimp; linarith, by norm_num, ?_, by norm_num⟩
  have hfb : findFirstBracket (fun V : ℚ => 1000 * (V - 1087)) 1000 1200 10
      = some 4 := by
    have h : List.range 10 = [0, 1, 2, 3, 4, 5, 6, 7, 8, 9] := rfl
    rw [findFirstBracket, h]
    norm_num [List.find?, samplePoint]
  simp only [findCriticalRoot, hfb]
  have h4 : samplePoint 1000 1200 10 4 = 1080 := by norm_num [samplePoint]
  have h5 : samplePoint 1000 1200 10 (4 + 1) = 1100 := by
    norm_num [samplePoint]
  rw [h4, h5, show (50:ℕ) = 49 + 1 from rfl, bisect]
  norm_num

end MastFlutter
